import Mathlib

/-!
Shallow embedding of the claude-code-notifier hook script (notify.mjs).

The script is a process-per-invocation Node program with three entry
points (start-timer, check-duration, permission-request).  We embed:

* the i18n table MESSAGES index and the lookup t / getSystemLanguage;
* the platform window adapter getTerminalWindowId / focusTerminal,
  modelled by the description of the external call each platform makes
  (program, timeout, detached flag) together with the pure result
  function, where an external-call failure (exception) is the value
  none;
* the session state store: the script keys plain-text files by the path
  tmpdir/claude-code-notifier/<type>-<sessionId>; the constant directory
  prefix is dropped and the store is a partial map from the file name
  <type>-<sessionId> to its content;
* stdin parsing: the script does JSON.parse and returns an empty object
  on any parse failure; we model the parse outcome as an Option of the
  typed input record, so a failed parse is none;
* notify, which packages the arguments handed to the node-notifier
  backend (the environment-dependent icon-path probe is omitted; no
  claim mentions the icon);
* the three hook handlers startTimer, checkDuration, permissionRequest
  as pure state transformers over the store, returning the list of
  notifications issued.  Date.now() and the window-capture result are
  explicit parameters.

JavaScript remarks reflected here: the expression a || b on strings
treats both undefined and the empty string as falsy (jsOrD / jsTruthy);
parseInt reads the leading run of digits and yields NaN when there is
none, and NaN compared with the threshold is false (parseIntJS returning
none plays NaN's role); Math.floor((now - start) / 1000) on exact
integers is floor division, Int.fdiv.
-/

namespace CCNotifier

/-- JavaScript a || d for an optional string a: undefined and the
empty string are falsy. -/
def jsOrD (x : Option String) (d : String) : String :=
  match x with
  | some s => if s = "" then d else s
  | none => d

/-- JavaScript truthiness of an optional string. -/
def jsTruthy (x : Option String) : Bool :=
  match x with
  | some s => !(s == "")
  | none => false

/-! ## Configuration (CONFIG object) -/

def CONFIG_durationThreshold : Int := 60

def CONFIG_appName : String := "Claude Code"

/-! ## i18n (MESSAGES table, getSystemLanguage, t) -/

/-- The en bundle of the MESSAGES object. -/
def bundle_en (key : String) : Option String :=
  match key with
  | "completed" => some "Completed"
  | "seconds" => some "seconds"
  | "permissionRequest" => some "Permission Request"
  | "clickToFocus" => some "Click to focus terminal"
  | _ => none

/-- The ko bundle of the MESSAGES object. -/
def bundle_ko (key : String) : Option String :=
  match key with
  | "completed" => some "완료"
  | "seconds" => some "초"
  | "permissionRequest" => some "권한 요청"
  | "clickToFocus" => some "클릭하여 터미널로 이동"
  | _ => none

/-- The ja bundle of the MESSAGES object. -/
def bundle_ja (key : String) : Option String :=
  match key with
  | "completed" => some "完了"
  | "seconds" => some "秒"
  | "permissionRequest" => some "権限リクエスト"
  | "clickToFocus" => some "クリックしてターミナルにフォーカス"
  | _ => none

/-- The zh bundle of the MESSAGES object. -/
def bundle_zh (key : String) : Option String :=
  match key with
  | "completed" => some "完成"
  | "seconds" => some "秒"
  | "permissionRequest" => some "权限请求"
  | "clickToFocus" => some "点击聚焦终端"
  | _ => none

/-- The de bundle of the MESSAGES object. -/
def bundle_de (key : String) : Option String :=
  match key with
  | "completed" => some "Abgeschlossen"
  | "seconds" => some "Sekunden"
  | "permissionRequest" => some "Berechtigungsanfrage"
  | "clickToFocus" => some "Klicken zum Fokussieren des Terminals"
  | _ => none

/-- The fr bundle of the MESSAGES object. -/
def bundle_fr (key : String) : Option String :=
  match key with
  | "completed" => some "Terminé"
  | "seconds" => some "secondes"
  | "permissionRequest" => some "Demande de permission"
  | "clickToFocus" => some "Cliquer pour focus le terminal"
  | _ => none

/-- The es bundle of the MESSAGES object. -/
def bundle_es (key : String) : Option String :=
  match key with
  | "completed" => some "Completado"
  | "seconds" => some "segundos"
  | "permissionRequest" => some "Solicitud de permiso"
  | "clickToFocus" => some "Clic para enfocar la terminal"
  | _ => none

/-- MESSAGES[lang]: the bundle for a top-level key of the MESSAGES
object, none for any other language code. -/
def MESSAGES_bundle (lang : String) : Option (String → Option String) :=
  match lang with
  | "en" => some bundle_en
  | "ko" => some bundle_ko
  | "ja" => some bundle_ja
  | "zh" => some bundle_zh
  | "de" => some bundle_de
  | "fr" => some bundle_fr
  | "es" => some bundle_es
  | _ => none

/-- MESSAGES[lang]?.[key]: optional chaining through the nested
object. -/
def MESSAGES (lang key : String) : Option String :=
  match MESSAGES_bundle lang with
  | some b => b key
  | none => none

/-- Truthiness of MESSAGES[lang]: whether lang is one of the seven
top-level keys of the MESSAGES object. -/
def hasBundle (lang : String) : Bool :=
  (MESSAGES_bundle lang).isSome

/-- Final step of getSystemLanguage: return MESSAGES[lang] ? lang : 'en'.
The OS-specific detection that produced the candidate code (LANG
environment variable parsing or the PowerShell culture query, both are
external) is the argument. -/
def getSystemLanguage (detected : String) : String :=
  if hasBundle detected then detected else "en"

/-- t(key): MESSAGES[lang]?.[key] || MESSAGES.en[key] || key, with the
resolved language passed explicitly. -/
def t (lang key : String) : String :=
  jsOrD (MESSAGES lang key) (jsOrD (MESSAGES "en" key) key)

/-! ## Platform window adapter -/

/-- Description of one external process invocation: the program run,
the timeout handed to execSync (none when the API used has no timeout
option), and whether the child is spawned detached / waited for. -/
structure ExternalCall where
  prog : String
  timeoutMs : Option Nat
  detached : Bool
  waited : Bool
  deriving DecidableEq

/-- The external call getTerminalWindowId makes on each platform: all
three branches use execSync with timeout 3000, blocking.  Unknown
platforms make no call. -/
def getTerminalWindowIdCall (os : String) : Option ExternalCall :=
  match os with
  | "linux" => some ⟨"xdotool", some 3000, false, true⟩
  | "darwin" => some ⟨"osascript", some 3000, false, true⟩
  | "win32" => some ⟨"powershell", some 3000, false, true⟩
  | _ => none

/-- Result of getTerminalWindowId: on the three known platforms the
execSync output is trimmed; an exception (execResult = none: missing
utility, timeout, non-zero exit) is caught and yields null; any other
platform falls through to null. -/
def getTerminalWindowId (os : String) (execResult : Option String) : Option String :=
  match os with
  | "linux" => execResult.map String.trim
  | "darwin" => execResult.map String.trim
  | "win32" => execResult.map String.trim
  | _ => none

/-- The external call focusTerminal makes: if (!windowId) return; else a
detached, unwaited spawn with stdio ignored and no timeout option, on
each of the three platforms; unknown platforms spawn nothing.  Any
exception from spawn is caught and ignored, so the function always
returns (it is total here). -/
def focusTerminalCall (os : String) (windowId : Option String) : Option ExternalCall :=
  if jsTruthy windowId = false then none
  else
    match os with
    | "linux" => some ⟨"xdotool", none, true, false⟩
    | "darwin" => some ⟨"osascript", none, true, false⟩
    | "win32" => some ⟨"powershell", none, true, false⟩
    | _ => none

/-! ## Session state store (temp file management) -/

/-- getTempFile(sessionId, type): the file name type-sessionId.  The
constant directory prefix join(tmpdir(), 'claude-code-notifier') is
dropped from the model. -/
def getTempFile (sessionId ty : String) : String :=
  ty ++ "-" ++ sessionId

/-- The state of the temp directory: content of each file name, none
when the file is absent. -/
structure Store where
  files : String → Option String

def Store.empty : Store := ⟨fun _ => none⟩

/-- readFileSync when the file exists, none otherwise. -/
def Store.get (s : Store) (path : String) : Option String :=
  s.files path

/-- existsSync. -/
def Store.existsSync (s : Store) (path : String) : Bool :=
  (s.files path).isSome

/-- writeFileSync. -/
def Store.writeFileSync (s : Store) (path content : String) : Store :=
  ⟨fun p => if p = path then some content else s.files p⟩

/-- unlinkSync. -/
def Store.unlinkSync (s : Store) (path : String) : Store :=
  ⟨fun p => if p = path then none else s.files p⟩

/-! ## Stdin helper -/

/-- tool_input object of a permission-request payload. -/
structure ToolInput where
  file_path : Option String
  command : Option String
  deriving DecidableEq

def ToolInput.empty : ToolInput := ⟨none, none⟩

/-- The typed content of the JSON stdin payload; absent fields are
none. -/
structure Input where
  session_id : Option String
  prompt : Option String
  tool_name : Option String
  tool_input : Option ToolInput
  deriving DecidableEq

def Input.empty : Input := ⟨none, none, none, none⟩

/-- readStdin: JSON.parse(text) inside try, returning the empty object
on any parse failure.  The argument is the parse outcome (none =
malformed / non-JSON input). -/
def readStdin (parsed : Option Input) : Input :=
  parsed.getD Input.empty

/-! ## Notification facade -/

/-- The third argument of notify. -/
structure NotifyOptions where
  windowId : Option String
  wait : Option Bool
  timeout : Option Nat
  deriving DecidableEq

/-- The record handed to notifier.notify, plus the window id the click
callback closes over (the callback calls focusTerminal(options.windowId)
on an activation-type event).  The environment-dependent icon probe is
omitted. -/
structure Notification where
  title : String
  message : String
  windowId : Option String
  sound : Bool
  wait : Bool
  timeout : Nat
  appID : String
  deriving DecidableEq

/-- notify(title, message, options): sound true, wait defaulting to
true, timeout defaulting to 10, appID from CONFIG. -/
def notify (title message : String) (options : NotifyOptions) : Notification :=
  ⟨title, message, options.windowId, true, options.wait.getD true,
    options.timeout.getD 10, CONFIG_appName⟩

/-! ## Hook handlers -/

/-- Store state and notifications issued by one hook invocation. -/
structure HookResult where
  store : Store
  notifications : List Notification

/-- parseInt on the decimal strings this script stores: the leading run
of digits, none when there is none (parseInt would give NaN, and every
subsequent >= comparison would be false). -/
def parseIntJS (s : String) : Option Nat :=
  let digits := s.data.takeWhile Char.isDigit
  if digits.isEmpty then none else some (digits.foldl (fun acc c => acc * 10 + (c.toNat - 48)) 0)

/-- startTimer: writes the start time, the first 50 characters of the
prompt when the prompt is truthy, and the captured window id when that
is truthy.  now is Date.now(); windowId is the getTerminalWindowId
result. -/
def startTimer (now : Nat) (windowId : Option String) (input : Input) (s : Store) : Store :=
  let sessionId := jsOrD input.session_id "default"
  let prompt := jsOrD input.prompt ""
  let startFile := getTempFile sessionId "start"
  let promptFile := getTempFile sessionId "prompt"
  let windowFile := getTempFile sessionId "window"
  let s1 := s.writeFileSync startFile (toString now)
  let s2 := if prompt = "" then s1 else s1.writeFileSync promptFile (prompt.take 50)
  match windowId with
  | some w => if w = "" then s2 else s2.writeFileSync windowFile w
  | none => s2

/-- checkDuration: early return when the start file is absent;
otherwise parse the start time, notify when the floored elapsed seconds
reach the threshold (message: completed label, parenthesized duration
and unit, plus a prompt line ending in an ellipsis when the prompt file
exists), then unconditionally clean the three files up.  The try block
around the body only guards filesystem races, which the store model
does not exhibit. -/
def checkDuration (lang : String) (now : Nat) (input : Input) (s : Store) : HookResult :=
  let sessionId := jsOrD input.session_id "default"
  let startFile := getTempFile sessionId "start"
  let promptFile := getTempFile sessionId "prompt"
  let windowFile := getTempFile sessionId "window"
  match s.get startFile with
  | none => ⟨s, []⟩
  | some content =>
    let notifs :=
      match parseIntJS content with
      | none => []
      | some startTime =>
        let duration : Int := ((now : Int) - (startTime : Int)).fdiv 1000
        if duration ≥ CONFIG_durationThreshold then
          let base := t lang "completed" ++ " (" ++ toString duration ++ t lang "seconds" ++ ")"
          let message :=
            match s.get promptFile with
            | some prompt => base ++ "\n" ++ prompt ++ "..."
            | none => base
          let windowId := s.get windowFile
          [notify CONFIG_appName message ⟨windowId, none, none⟩]
        else []
    let s1 := s.unlinkSync startFile
    let s2 := if s1.existsSync promptFile then s1.unlinkSync promptFile else s1
    let s3 := if s2.existsSync windowFile then s2.unlinkSync windowFile else s2
    ⟨s3, notifs⟩

/-- permissionRequest: detail from tool_input.file_path || tool_input.command
|| '', truncated to 50 characters; reads the window file without
deleting anything; always notifies with a 30-second timeout. -/
def permissionRequest (lang : String) (input : Input) (s : Store) : HookResult :=
  let toolName := jsOrD input.tool_name "unknown"
  let toolInput := input.tool_input.getD ToolInput.empty
  let sessionId := jsOrD input.session_id "default"
  let detail := jsOrD toolInput.file_path (jsOrD toolInput.command "")
  let shortDetail := detail.take 50
  let windowFile := getTempFile sessionId "window"
  let windowId := s.get windowFile
  let message :=
    if shortDetail = "" then t lang "permissionRequest" ++ ": " ++ toolName
    else t lang "permissionRequest" ++ ": " ++ toolName ++ "\n" ++ shortDetail ++ "..."
  ⟨s, [notify CONFIG_appName message ⟨windowId, none, some 30⟩]⟩

/-! ## Store lemmas -/

theorem Store.get_write_self (s : Store) (k v : String) :
    (s.writeFileSync k v).get k = some v := by
  simp [Store.get, Store.writeFileSync]

theorem Store.get_write_of_ne (s : Store) (k k2 v : String) (h : k ≠ k2) :
    (s.writeFileSync k2 v).get k = s.get k := by
  simp [Store.get, Store.writeFileSync, h]

theorem Store.get_unlink_self (s : Store) (k : String) :
    (s.unlinkSync k).get k = none := by
  simp [Store.get, Store.unlinkSync]

theorem Store.get_unlink_of_ne (s : Store) (k k2 : String) (h : k ≠ k2) :
    (s.unlinkSync k2).get k = s.get k := by
  simp [Store.get, Store.unlinkSync, h]

theorem Store.get_unlink_none (s : Store) (k k2 : String) (h : s.get k = none) :
    (s.unlinkSync k2).get k = none := by
  simp only [Store.get, Store.unlinkSync] at h ⊢
  split <;> simp [h]

theorem Store.existsSync_eq (s : Store) (k : String) :
    s.existsSync k = (s.get k).isSome := rfl

/-- Two temp-file names for the same session are distinct whenever
their type strings differ. -/
theorem getTempFile_ne (sid ty1 ty2 : String) (h : ty1.data ≠ ty2.data) :
    getTempFile sid ty1 ≠ getTempFile sid ty2 := by
  intro he
  apply h
  simp only [getTempFile] at he
  have h2 := congrArg String.data he
  simp only [String.data_append] at h2
  exact List.append_cancel_right (List.append_cancel_right h2)

theorem start_ne_prompt (sid : String) :
    getTempFile sid "start" ≠ getTempFile sid "prompt" :=
  getTempFile_ne sid "start" "prompt" (by decide)

theorem start_ne_window (sid : String) :
    getTempFile sid "start" ≠ getTempFile sid "window" :=
  getTempFile_ne sid "start" "window" (by decide)

theorem prompt_ne_window (sid : String) :
    getTempFile sid "prompt" ≠ getTempFile sid "window" :=
  getTempFile_ne sid "prompt" "window" (by decide)

/-! ## Claim C1 -/

/-- Claim C1: with an existing (parseable) startTimestamp record,
checkDuration computes durationSeconds = floor((now - startTimestamp) /
1000) and notifies exactly when durationSeconds >= 60; the notification
message is the localized completed label with the parenthesized
duration and localized unit, plus a second line with the stored prompt
excerpt followed by an ellipsis exactly when a prompt record exists. -/
theorem checkDuration_threshold_spec
    (lang : String) (now startTime : Nat) (input : Input) (s : Store) (content : String)
    (hstart : s.get (getTempFile (jsOrD input.session_id "default") "start") = some content)
    (hparse : parseIntJS content = some startTime) :
    (((checkDuration lang now input s).notifications ≠ []) ↔
        ((now : Int) - (startTime : Int)).fdiv 1000 ≥ 60) ∧
    (checkDuration lang now input s).notifications =
      (if ((now : Int) - (startTime : Int)).fdiv 1000 ≥ CONFIG_durationThreshold then
        [notify CONFIG_appName
          (match s.get (getTempFile (jsOrD input.session_id "default") "prompt") with
           | some prompt =>
               t lang "completed" ++ " (" ++
                 toString (((now : Int) - (startTime : Int)).fdiv 1000) ++
                 t lang "seconds" ++ ")" ++ "\n" ++ prompt ++ "..."
           | none =>
               t lang "completed" ++ " (" ++
                 toString (((now : Int) - (startTime : Int)).fdiv 1000) ++
                 t lang "seconds" ++ ")")
          ⟨s.get (getTempFile (jsOrD input.session_id "default") "window"), none, none⟩]
       else []) := by
  simp only [checkDuration, hstart, hparse]
  constructor
  · simp only [CONFIG_durationThreshold]
    split
    · rename_i hc
      simp [hc]
    · rename_i hc
      simp [hc]
  · trivial

set_option maxRecDepth 100000 in
theorem checkDuration_threshold_spec_witness :
    (Store.get ⟨fun p => if p = "start-default" then some "0" else none⟩
        (getTempFile (jsOrD Input.empty.session_id "default") "start") = some "0") ∧
    (parseIntJS "0" = some 0) ∧
    ((checkDuration "en" 65000 Input.empty
        ⟨fun p => if p = "start-default" then some "0" else none⟩).notifications ≠ []) ∧
    ((checkDuration "en" 10000 Input.empty
        ⟨fun p => if p = "start-default" then some "0" else none⟩).notifications = []) := by
  refine ⟨by decide, by decide, ?_, ?_⟩
  · exact (checkDuration_threshold_spec "en" 65000 0 Input.empty
      ⟨fun p => if p = "start-default" then some "0" else none⟩ "0"
      (by decide) (by decide)).1.mpr (by decide)
  · have h := (checkDuration_threshold_spec "en" 10000 0 Input.empty
      ⟨fun p => if p = "start-default" then some "0" else none⟩ "0"
      (by decide) (by decide)).1
    exact not_ne_iff.mp (fun hne => absurd (h.mp hne) (by decide))

/-! ## Claim C2 -/

/-- Claim C2: when the startTimestamp record exists, checkDuration
leaves all three field files for the session absent, whether or not it
notified. -/
theorem checkDuration_cleanup (lang : String) (now : Nat) (input : Input) (s : Store)
    (content : String)
    (h : s.get (getTempFile (jsOrD input.session_id "default") "start") = some content) :
    ((checkDuration lang now input s).store.get
        (getTempFile (jsOrD input.session_id "default") "start") = none) ∧
    ((checkDuration lang now input s).store.get
        (getTempFile (jsOrD input.session_id "default") "prompt") = none) ∧
    ((checkDuration lang now input s).store.get
        (getTempFile (jsOrD input.session_id "default") "window") = none) := by
  have hne1 := start_ne_prompt (jsOrD input.session_id "default")
  have hne2 := start_ne_window (jsOrD input.session_id "default")
  have hne3 := prompt_ne_window (jsOrD input.session_id "default")
  have hne1s := hne1.symm
  have hne2s := hne2.symm
  have hne3s := hne3.symm
  simp only [checkDuration, h]
  refine ⟨?_, ?_, ?_⟩ <;>
    · split <;> split <;>
        simp_all [Store.get, Store.unlinkSync, Store.existsSync,
          Option.not_isSome_iff_eq_none]

set_option maxRecDepth 100000 in
theorem checkDuration_cleanup_witness :
    (Store.get ⟨fun p => if p = "start-default" then some "35000"
        else if p = "prompt-default" then some "hello" else none⟩
      (getTempFile (jsOrD Input.empty.session_id "default") "start") = some "35000") ∧
    (((checkDuration "en" 45000 Input.empty
        ⟨fun p => if p = "start-default" then some "35000"
          else if p = "prompt-default" then some "hello" else none⟩).store.get
        (getTempFile (jsOrD Input.empty.session_id "default") "start") = none) ∧
     ((checkDuration "en" 45000 Input.empty
        ⟨fun p => if p = "start-default" then some "35000"
          else if p = "prompt-default" then some "hello" else none⟩).store.get
        (getTempFile (jsOrD Input.empty.session_id "default") "prompt") = none) ∧
     ((checkDuration "en" 45000 Input.empty
        ⟨fun p => if p = "start-default" then some "35000"
          else if p = "prompt-default" then some "hello" else none⟩).store.get
        (getTempFile (jsOrD Input.empty.session_id "default") "window") = none)) :=
  ⟨by decide, checkDuration_cleanup "en" 45000 Input.empty
    ⟨fun p => if p = "start-default" then some "35000"
      else if p = "prompt-default" then some "hello" else none⟩ "35000" (by decide)⟩

/-! ## Claim C3 -/

/-- Claim C3: with no startTimestamp record, checkDuration is a no-op:
no notification, no error, and the store is returned unchanged. -/
theorem checkDuration_no_start_noop (lang : String) (now : Nat) (input : Input) (s : Store)
    (h : s.get (getTempFile (jsOrD input.session_id "default") "start") = none) :
    checkDuration lang now input s = ⟨s, []⟩ := by
  simp only [checkDuration]
  rw [h]

theorem checkDuration_no_start_noop_witness :
    (Store.empty.get (getTempFile (jsOrD Input.empty.session_id "default") "start") = none) ∧
    checkDuration "en" 99999 Input.empty Store.empty = ⟨Store.empty, []⟩ :=
  ⟨rfl, checkDuration_no_start_noop "en" 99999 Input.empty Store.empty rfl⟩

/-! ## String take lemmas -/

theorem take_eq_self_of_le (s : String) (n : Nat) (h : s.length ≤ n) : s.take n = s := by
  cases s with
  | mk l =>
    apply String.ext
    rw [String.data_take]
    exact List.take_of_length_le h

theorem length_take_min (s : String) (n : Nat) : (s.take n).length = min n s.length := by
  cases s with
  | mk l =>
    have h := congrArg List.length (String.data_take ⟨l⟩ n)
    simpa [String.length] using h

/-! ## startTimer lemmas -/

theorem startTimer_get_start (now : Nat) (wcap : Option String) (input : Input) (s : Store) :
    (startTimer now wcap input s).get (getTempFile (jsOrD input.session_id "default") "start")
      = some (toString now) := by
  have h1 := start_ne_prompt (jsOrD input.session_id "default")
  have h2 := start_ne_window (jsOrD input.session_id "default")
  simp only [startTimer]
  (repeat' split) <;> simp_all [Store.get, Store.writeFileSync]

theorem startTimer_get_prompt_pos (now : Nat) (wcap : Option String) (input : Input) (s : Store)
    (hp : jsOrD input.prompt "" ≠ "") :
    (startTimer now wcap input s).get (getTempFile (jsOrD input.session_id "default") "prompt")
      = some ((jsOrD input.prompt "").take 50) := by
  have h1 := (start_ne_prompt (jsOrD input.session_id "default")).symm
  have h3 := prompt_ne_window (jsOrD input.session_id "default")
  simp only [startTimer]
  (repeat' split) <;> simp_all [Store.get, Store.writeFileSync]

theorem startTimer_get_prompt_neg (now : Nat) (wcap : Option String) (input : Input) (s : Store)
    (hp : jsOrD input.prompt "" = "") :
    (startTimer now wcap input s).get (getTempFile (jsOrD input.session_id "default") "prompt")
      = s.get (getTempFile (jsOrD input.session_id "default") "prompt") := by
  have h1 := (start_ne_prompt (jsOrD input.session_id "default")).symm
  have h3 := prompt_ne_window (jsOrD input.session_id "default")
  simp only [startTimer]
  (repeat' split) <;> simp_all [Store.get, Store.writeFileSync]

theorem startTimer_get_window_untruthy (now : Nat) (wcap : Option String) (input : Input)
    (s : Store) (hw : jsTruthy wcap = false) :
    (startTimer now wcap input s).get (getTempFile (jsOrD input.session_id "default") "window")
      = s.get (getTempFile (jsOrD input.session_id "default") "window") := by
  have h2 := (start_ne_window (jsOrD input.session_id "default")).symm
  have h3 := (prompt_ne_window (jsOrD input.session_id "default")).symm
  simp only [startTimer]
  (repeat' split) <;> simp_all [Store.get, Store.writeFileSync, jsTruthy]

/-! ## Claim C6 -/

/-- Claim C6: startTimer always writes the start timestamp; when the
prompt is non-empty it stores exactly the first 50 characters (prompts
of at most 50 characters are stored whole, longer ones are cut to
exactly 50); when the prompt is empty or absent, no prompt file is
written (the prompt field is untouched). -/
theorem startTimer_prompt_spec (now : Nat) (wcap : Option String) (input : Input) (s : Store) :
    ((startTimer now wcap input s).get (getTempFile (jsOrD input.session_id "default") "start")
        = some (toString now)) ∧
    (jsOrD input.prompt "" ≠ "" →
      (startTimer now wcap input s).get (getTempFile (jsOrD input.session_id "default") "prompt")
        = some ((jsOrD input.prompt "").take 50)) ∧
    (jsOrD input.prompt "" ≠ "" → (jsOrD input.prompt "").length ≤ 50 →
      (startTimer now wcap input s).get (getTempFile (jsOrD input.session_id "default") "prompt")
        = some (jsOrD input.prompt "")) ∧
    (jsOrD input.prompt "" ≠ "" → 50 ≤ (jsOrD input.prompt "").length →
      ((startTimer now wcap input s).get
          (getTempFile (jsOrD input.session_id "default") "prompt")).map String.length
        = some 50) ∧
    (jsOrD input.prompt "" = "" →
      (startTimer now wcap input s).get (getTempFile (jsOrD input.session_id "default") "prompt")
        = s.get (getTempFile (jsOrD input.session_id "default") "prompt")) := by
  refine ⟨startTimer_get_start now wcap input s, ?_, ?_, ?_,
    fun hp => startTimer_get_prompt_neg now wcap input s hp⟩
  · exact fun hp => startTimer_get_prompt_pos now wcap input s hp
  · intro hp hle
    rw [startTimer_get_prompt_pos now wcap input s hp, take_eq_self_of_le _ _ hle]
  · intro hp hge
    rw [startTimer_get_prompt_pos now wcap input s hp]
    simp [length_take_min, Nat.min_eq_left hge]

set_option maxRecDepth 100000 in
theorem startTimer_prompt_spec_witness :
    (jsOrD (some "fix the bug in parser.ts and rerun tests please no") "" ≠ "") ∧
    ((jsOrD (some "fix the bug in parser.ts and rerun tests please no") "").length ≤ 50) ∧
    (50 ≤ (jsOrD (some "fix the bug in parser.ts and rerun tests please no") "").length) ∧
    ((startTimer 1000 none
        ⟨some "s1", some "fix the bug in parser.ts and rerun tests please no", none, none⟩
        Store.empty).get
      (getTempFile
        (jsOrD (Input.mk (some "s1")
          (some "fix the bug in parser.ts and rerun tests please no") none none).session_id
          "default") "prompt")
      = some (jsOrD (some "fix the bug in parser.ts and rerun tests please no") "")) ∧
    ((startTimer 1000 none ⟨some "s2", none, none, none⟩ Store.empty).get
      (getTempFile (jsOrD (Input.mk (some "s2") none none none).session_id "default") "prompt")
      = Store.empty.get
          (getTempFile (jsOrD (Input.mk (some "s2") none none none).session_id "default")
            "prompt")) := by
  have hA := startTimer_prompt_spec 1000 none
    ⟨some "s1", some "fix the bug in parser.ts and rerun tests please no", none, none⟩
    Store.empty
  have hB := startTimer_prompt_spec 1000 none ⟨some "s2", none, none, none⟩ Store.empty
  exact ⟨by decide, by decide, by decide,
    hA.2.2.1 (by decide) (by decide), hB.2.2.2.2 (by decide)⟩

/-! ## Claim C9 -/

/-- Claim C9: invoking startTimer for a session that already has a
start record unconditionally overwrites the start timestamp with the
current time, while an existing prompt or window file is left in place
when the new invocation has an empty prompt or the window capture is
falsy (failed). -/
theorem startTimer_overwrite_spec (now : Nat) (wcap : Option String) (input : Input) (s : Store)
    (oldVal : String)
    (hold : s.get (getTempFile (jsOrD input.session_id "default") "start") = some oldVal) :
    ((startTimer now wcap input s).get (getTempFile (jsOrD input.session_id "default") "start")
        = some (toString now)) ∧
    (jsOrD input.prompt "" = "" →
      (startTimer now wcap input s).get (getTempFile (jsOrD input.session_id "default") "prompt")
        = s.get (getTempFile (jsOrD input.session_id "default") "prompt")) ∧
    (jsTruthy wcap = false →
      (startTimer now wcap input s).get (getTempFile (jsOrD input.session_id "default") "window")
        = s.get (getTempFile (jsOrD input.session_id "default") "window")) :=
  ⟨startTimer_get_start now wcap input s,
   fun hp => startTimer_get_prompt_neg now wcap input s hp,
   fun hw => startTimer_get_window_untruthy now wcap input s hw⟩

set_option maxRecDepth 100000 in
theorem startTimer_overwrite_spec_witness :
    (Store.get ⟨fun p => if p = "start-s1" then some "111"
        else if p = "prompt-s1" then some "old prompt"
        else if p = "window-s1" then some "W1" else none⟩
      (getTempFile (jsOrD (Input.mk (some "s1") none none none).session_id "default") "start")
      = some "111") ∧
    (((startTimer 2000 none ⟨some "s1", none, none, none⟩
        ⟨fun p => if p = "start-s1" then some "111"
          else if p = "prompt-s1" then some "old prompt"
          else if p = "window-s1" then some "W1" else none⟩).get
        (getTempFile (jsOrD (Input.mk (some "s1") none none none).session_id "default") "start")
        = some (toString 2000)) ∧
     ((startTimer 2000 none ⟨some "s1", none, none, none⟩
        ⟨fun p => if p = "start-s1" then some "111"
          else if p = "prompt-s1" then some "old prompt"
          else if p = "window-s1" then some "W1" else none⟩).get
        (getTempFile (jsOrD (Input.mk (some "s1") none none none).session_id "default") "prompt")
        = some "old prompt") ∧
     ((startTimer 2000 none ⟨some "s1", none, none, none⟩
        ⟨fun p => if p = "start-s1" then some "111"
          else if p = "prompt-s1" then some "old prompt"
          else if p = "window-s1" then some "W1" else none⟩).get
        (getTempFile (jsOrD (Input.mk (some "s1") none none none).session_id "default") "window")
        = some "W1")) := by
  have h := startTimer_overwrite_spec 2000 none ⟨some "s1", none, none, none⟩
    ⟨fun p => if p = "start-s1" then some "111"
      else if p = "prompt-s1" then some "old prompt"
      else if p = "window-s1" then some "W1" else none⟩ "111" (by decide)
  refine ⟨by decide, h.1, ?_, ?_⟩
  · rw [h.2.1 (by decide)]
    decide
  · rw [h.2.2 (by decide)]
    decide

/-! ## Claim C4 -/

set_option maxRecDepth 100000 in
/-- Claim C4 counterexample: with tool_input.file_path present but
equal to the empty string and tool_input.command present and non-empty,
the detail is taken from command (JavaScript || treats the empty string
as falsy), so the message carries the command excerpt instead of the
file_path one the claim predicts. -/
theorem permissionRequest_detail_cex :
    ((permissionRequest "en" ⟨some "s1", none, some "Bash", some ⟨some "", some "ls -la"⟩⟩
        Store.empty).notifications.map Notification.message
      = ["Permission Request: Bash" ++ "\n" ++ "ls -la" ++ "..."]) ∧
    ((permissionRequest "en" ⟨some "s1", none, some "Bash", some ⟨some "", some "ls -la"⟩⟩
        Store.empty).notifications.map Notification.message
      ≠ ["Permission Request: Bash"]) := by
  constructor <;> decide

set_option maxRecDepth 100000 in
set_option maxHeartbeats 1000000 in
/-- Claim C4 (amended): the detail string is tool_input.file_path when
that is present and non-empty, otherwise tool_input.command (JavaScript
|| falsiness), truncated to its first 50 characters; notify is always
called exactly once with the localized permission-request line holding
the tool name and a 30-second timeout; the session windowHandle is read
into the notification but the store is left unchanged. -/
theorem permissionRequest_spec (lang : String) (input : Input) (s : Store) :
    ((permissionRequest lang input s).store = s) ∧
    ((permissionRequest lang input s).notifications.map Notification.timeout = [30]) ∧
    ((permissionRequest lang input s).notifications.map Notification.windowId
        = [s.get (getTempFile (jsOrD input.session_id "default") "window")]) ∧
    (∀ fp, (input.tool_input.getD ToolInput.empty).file_path = some fp → fp ≠ "" →
      jsOrD (input.tool_input.getD ToolInput.empty).file_path
        (jsOrD (input.tool_input.getD ToolInput.empty).command "") = fp) ∧
    (((jsOrD (input.tool_input.getD ToolInput.empty).file_path
        (jsOrD (input.tool_input.getD ToolInput.empty).command "")).take 50).length ≤ 50) ∧
    ((permissionRequest lang input s).notifications.map Notification.message =
      [if (jsOrD (input.tool_input.getD ToolInput.empty).file_path
            (jsOrD (input.tool_input.getD ToolInput.empty).command "")).take 50 = ""
       then t lang "permissionRequest" ++ ": " ++ jsOrD input.tool_name "unknown"
       else t lang "permissionRequest" ++ ": " ++ jsOrD input.tool_name "unknown" ++ "\n" ++
         (jsOrD (input.tool_input.getD ToolInput.empty).file_path
            (jsOrD (input.tool_input.getD ToolInput.empty).command "")).take 50 ++ "..."]) := by
  refine ⟨rfl, ?_, ?_, ?_, ?_, ?_⟩
  · simp only [permissionRequest, List.map_cons, List.map_nil, notify, Option.getD_some]
  · simp only [permissionRequest, List.map_cons, List.map_nil, notify]
  · intro fp hfp hne
    simp [jsOrD, hfp, hne]
  · rw [length_take_min]
    exact Nat.min_le_left _ _
  · simp only [permissionRequest, List.map_cons, List.map_nil, notify]

set_option maxRecDepth 100000 in
theorem permissionRequest_spec_witness :
    ((Input.mk (some "s1") none (some "Edit")
        (some ⟨some "/a/b.txt", some "cat /a/b.txt"⟩)).tool_input.getD
        ToolInput.empty).file_path = some "/a/b.txt" ∧
    ("/a/b.txt" : String) ≠ "" ∧
    ((permissionRequest "en" ⟨some "s1", none, some "Edit",
        some ⟨some "/a/b.txt", some "cat /a/b.txt"⟩⟩ Store.empty).store = Store.empty) ∧
    ((permissionRequest "en" ⟨some "s1", none, some "Edit",
        some ⟨some "/a/b.txt", some "cat /a/b.txt"⟩⟩ Store.empty).notifications.map
        Notification.timeout = [30]) ∧
    (jsOrD ((Input.mk (some "s1") none (some "Edit")
        (some ⟨some "/a/b.txt", some "cat /a/b.txt"⟩)).tool_input.getD ToolInput.empty).file_path
      (jsOrD ((Input.mk (some "s1") none (some "Edit")
        (some ⟨some "/a/b.txt", some "cat /a/b.txt"⟩)).tool_input.getD ToolInput.empty).command "")
      = "/a/b.txt") := by
  have h := permissionRequest_spec "en"
    ⟨some "s1", none, some "Edit", some ⟨some "/a/b.txt", some "cat /a/b.txt"⟩⟩ Store.empty
  exact ⟨rfl, by decide, h.1, h.2.1, h.2.2.2.1 "/a/b.txt" rfl (by decide)⟩

/-! ## Claim C10 -/

set_option maxRecDepth 100000 in
set_option maxHeartbeats 1000000 in
/-- Claim C10: when tool_name is absent or empty, the notification is
still issued (exactly one notify call) and its message carries the
literal string unknown in place of the tool name. -/
theorem permissionRequest_unknown_tool (lang : String) (input : Input) (s : Store)
    (h : input.tool_name = none ∨ input.tool_name = some "") :
    ((permissionRequest lang input s).notifications.length = 1) ∧
    ((permissionRequest lang input s).notifications.map Notification.message =
      [if (jsOrD (input.tool_input.getD ToolInput.empty).file_path
            (jsOrD (input.tool_input.getD ToolInput.empty).command "")).take 50 = ""
       then t lang "permissionRequest" ++ ": " ++ "unknown"
       else t lang "permissionRequest" ++ ": " ++ "unknown" ++ "\n" ++
         (jsOrD (input.tool_input.getD ToolInput.empty).file_path
            (jsOrD (input.tool_input.getD ToolInput.empty).command "")).take 50 ++ "..."]) := by
  have htn : jsOrD input.tool_name "unknown" = "unknown" := by
    rcases h with h | h <;> simp [jsOrD, h]
  exact ⟨rfl, by simp only [permissionRequest, htn, List.map_cons, List.map_nil, notify]⟩

set_option maxRecDepth 100000 in
theorem permissionRequest_unknown_tool_witness :
    ((Input.mk (some "s1") none none none).tool_name = none ∨
      (Input.mk (some "s1") none none none).tool_name = some "") ∧
    ((permissionRequest "en" ⟨some "s1", none, none, none⟩ Store.empty).notifications.length
        = 1) ∧
    ((permissionRequest "en" ⟨some "s1", none, none, none⟩ Store.empty).notifications.map
        Notification.message
      = [if (jsOrD ((Input.mk (some "s1") none none none).tool_input.getD
              ToolInput.empty).file_path
            (jsOrD ((Input.mk (some "s1") none none none).tool_input.getD
              ToolInput.empty).command "")).take 50 = ""
         then t "en" "permissionRequest" ++ ": " ++ "unknown"
         else t "en" "permissionRequest" ++ ": " ++ "unknown" ++ "\n" ++
           (jsOrD ((Input.mk (some "s1") none none none).tool_input.getD
              ToolInput.empty).file_path
            (jsOrD ((Input.mk (some "s1") none none none).tool_input.getD
              ToolInput.empty).command "")).take 50 ++ "..."]) := by
  have h := permissionRequest_unknown_tool "en" ⟨some "s1", none, none, none⟩ Store.empty
    (Or.inl rfl)
  exact ⟨Or.inl rfl, h.1, h.2⟩

/-! ## i18n lemmas -/

set_option maxRecDepth 1000000 in
theorem bundle_en_ne_empty (key : String) : bundle_en key ≠ some "" := by
  intro h; unfold bundle_en at h; split at h <;> simp_all

set_option maxRecDepth 1000000 in
theorem bundle_ko_ne_empty (key : String) : bundle_ko key ≠ some "" := by
  intro h; unfold bundle_ko at h; split at h <;> simp_all

set_option maxRecDepth 1000000 in
theorem bundle_ja_ne_empty (key : String) : bundle_ja key ≠ some "" := by
  intro h; unfold bundle_ja at h; split at h <;> simp_all

set_option maxRecDepth 1000000 in
theorem bundle_zh_ne_empty (key : String) : bundle_zh key ≠ some "" := by
  intro h; unfold bundle_zh at h; split at h <;> simp_all

set_option maxRecDepth 1000000 in
theorem bundle_de_ne_empty (key : String) : bundle_de key ≠ some "" := by
  intro h; unfold bundle_de at h; split at h <;> simp_all

set_option maxRecDepth 1000000 in
theorem bundle_fr_ne_empty (key : String) : bundle_fr key ≠ some "" := by
  intro h; unfold bundle_fr at h; split at h <;> simp_all

set_option maxRecDepth 1000000 in
theorem bundle_es_ne_empty (key : String) : bundle_es key ≠ some "" := by
  intro h; unfold bundle_es at h; split at h <;> simp_all

set_option maxRecDepth 1000000 in
theorem MESSAGES_ne_some_empty (lang key : String) : MESSAGES lang key ≠ some "" := by
  intro h
  unfold MESSAGES MESSAGES_bundle at h
  split at h
  · rename_i b heq
    split at heq <;>
      first
      | exact Option.noConfusion heq
      | (injection heq with heqb
         subst heqb
         first
         | exact bundle_en_ne_empty key h
         | exact bundle_ko_ne_empty key h
         | exact bundle_ja_ne_empty key h
         | exact bundle_zh_ne_empty key h
         | exact bundle_de_ne_empty key h
         | exact bundle_fr_ne_empty key h
         | exact bundle_es_ne_empty key h)
  · exact Option.noConfusion h

set_option maxRecDepth 100000 in
theorem hasBundle_cases (L : String) (h : hasBundle L = true) :
    L = "en" ∨ L = "ko" ∨ L = "ja" ∨ L = "zh" ∨ L = "de" ∨ L = "fr" ∨ L = "es" := by
  unfold hasBundle MESSAGES_bundle at h
  split at h
  all_goals first
  | decide
  | simp at h

/-! ## Claim C5 -/

set_option maxRecDepth 1000000 in
set_option maxHeartbeats 2000000 in
/-- Claim C5: the resolver accepts each of the seven supported codes;
translation looks the key up in the resolved bundle, falls back to the
en bundle, and finally to the raw key; translating completed under any
supported code is non-empty; an unsupported resolved code makes the
resolver return the base language; the lookup is a total function
(never fails or throws). -/
theorem t_spec (L code key v : String) :
    (hasBundle L = true → getSystemLanguage L = L) ∧
    (hasBundle L = true → t L "completed" ≠ "") ∧
    (hasBundle code = false → getSystemLanguage code = "en") ∧
    (MESSAGES L key = some v → t L key = v) ∧
    (MESSAGES L key = none → ∀ w, MESSAGES "en" key = some w → t L key = w) ∧
    (MESSAGES L key = none → MESSAGES "en" key = none → t L key = key) := by
  refine ⟨?_, ?_, ?_, ?_, ?_, ?_⟩
  · intro h; simp [getSystemLanguage, h]
  · intro h
    rcases hasBundle_cases L h with h2 | h2 | h2 | h2 | h2 | h2 | h2 <;> subst h2 <;> decide
  · intro h; simp [getSystemLanguage, h]
  · intro h
    have hv : v ≠ "" := fun e => MESSAGES_ne_some_empty L key (by rw [h, e])
    simp [t, jsOrD, h, hv]
  · intro h w hw
    have hv : w ≠ "" := fun e => MESSAGES_ne_some_empty "en" key (by rw [hw, e])
    simp [t, jsOrD, h, hw, hv]
  · intro h1 h2
    simp [t, jsOrD, h1, h2]

set_option maxRecDepth 1000000 in
theorem t_spec_witness :
    (hasBundle "ko" = true) ∧ (getSystemLanguage "ko" = "ko") ∧ (t "ko" "completed" ≠ "") ∧
    (hasBundle "xx" = false) ∧ (getSystemLanguage "xx" = "en") ∧
    (MESSAGES "ko" "completed" = some "완료") ∧ (t "ko" "completed" = "완료") := by
  have h := t_spec "ko" "xx" "completed" "완료"
  exact ⟨by decide, h.1 (by decide), h.2.1 (by decide), by decide, h.2.2.1 (by decide),
    by decide, h.2.2.2.1 (by decide)⟩

/-! ## Claim C7 -/

set_option maxRecDepth 100000 in
/-- Claim C7: a failed stdin parse yields the empty object; a missing
session_id defaults to the string default; each of the three entry
points proceeds on the resulting all-default input (start file written
under the default session, exactly one permission notification, and a
clean no-op stop on an empty store). -/
theorem readStdin_defaults :
    (readStdin none = Input.empty) ∧
    (∀ i : Input, i.session_id = none → jsOrD i.session_id "default" = "default") ∧
    (∀ (now : Nat) (wcap : Option String) (s : Store),
      (startTimer now wcap (readStdin none) s).get (getTempFile "default" "start")
        = some (toString now)) ∧
    (∀ (lang : String) (s : Store),
      (permissionRequest lang (readStdin none) s).notifications.length = 1) ∧
    (∀ (lang : String) (now : Nat),
      checkDuration lang now (readStdin none) Store.empty = ⟨Store.empty, []⟩) := by
  refine ⟨rfl, ?_, ?_, ?_, ?_⟩
  · intro i h; simp [jsOrD, h]
  · intro now wcap s
    exact startTimer_get_start now wcap (readStdin none) s
  · intro lang s; rfl
  · intro lang now; rfl

set_option maxRecDepth 100000 in
theorem readStdin_defaults_witness :
    ((Input.mk none none none none).session_id = none) ∧
    (jsOrD (Input.mk none none none none).session_id "default" = "default") ∧
    ((startTimer 7 none (readStdin none) Store.empty).get (getTempFile "default" "start")
      = some (toString 7)) ∧
    ((permissionRequest "en" (readStdin none) Store.empty).notifications.length = 1) ∧
    (checkDuration "en" 7 (readStdin none) Store.empty = ⟨Store.empty, []⟩) := by
  have h := readStdin_defaults
  exact ⟨rfl, h.2.1 ⟨none, none, none, none⟩ rfl, h.2.2.1 7 none Store.empty,
    h.2.2.2.1 "en" Store.empty, h.2.2.2.2 "en" 7⟩

/-! ## Claim C8 -/

/-- Claim C8 counterexample: the activate operation (focusTerminal) on
linux with a truthy window id issues its spawn call with no timeout at
all, against the claim that both capture and activate bound their
external call with an approximately 3 second timeout. -/
theorem windowAdapter_activate_no_timeout_cex :
    (focusTerminalCall "linux" (some "12345")).map ExternalCall.timeoutMs = some none := by
  decide

/-- Claim C8 (amended): on each supported platform, capture bounds its
execSync call with a 3000 ms timeout and waits for it, and any failure
yields an absent handle; activate swallows failures identically but is
dispatched as a detached, unwaited fire-and-forget spawn carrying no
timeout (it does not block the caller), and is skipped entirely for a
falsy window id. -/
theorem windowAdapter_failure_spec (os : String)
    (hos : os = "linux" ∨ os = "darwin" ∨ os = "win32") :
    (getTerminalWindowId os none = none) ∧
    ((getTerminalWindowIdCall os).map ExternalCall.timeoutMs = some (some 3000)) ∧
    ((getTerminalWindowIdCall os).map ExternalCall.waited = some true) ∧
    (focusTerminalCall os none = none) ∧
    (∀ w, w ≠ "" → (focusTerminalCall os (some w)).map ExternalCall.timeoutMs = some none) ∧
    (∀ w, w ≠ "" → (focusTerminalCall os (some w)).map ExternalCall.detached = some true) ∧
    (∀ w, w ≠ "" → (focusTerminalCall os (some w)).map ExternalCall.waited = some false) := by
  rcases hos with h | h | h <;> subst h <;>
    refine ⟨rfl, rfl, rfl, rfl, ?_, ?_, ?_⟩ <;>
      (intro w hw; simp [focusTerminalCall, jsTruthy, hw])

theorem windowAdapter_failure_spec_witness :
    (("linux" : String) = "linux" ∨ ("linux" : String) = "darwin" ∨
      ("linux" : String) = "win32") ∧
    (("w1" : String) ≠ "") ∧
    (getTerminalWindowId "linux" none = none) ∧
    ((getTerminalWindowIdCall "linux").map ExternalCall.timeoutMs = some (some 3000)) ∧
    (focusTerminalCall "linux" none = none) ∧
    ((focusTerminalCall "linux" (some "w1")).map ExternalCall.timeoutMs = some none) ∧
    ((focusTerminalCall "linux" (some "w1")).map ExternalCall.detached = some true) := by
  have h := windowAdapter_failure_spec "linux" (Or.inl rfl)
  exact ⟨Or.inl rfl, by decide, h.1, h.2.1, h.2.2.2.1,
    h.2.2.2.2.1 "w1" (by decide), h.2.2.2.2.2.1 "w1" (by decide)⟩

end CCNotifier
